import Mathlib

/-! Crypto core: UTF-8 encoding, SHA-256, HMAC-SHA256, hex digests.
Models the Node crypto primitives used by the repository. -/

/-- UTF-8 encoding of one character, as a list of byte values. -/
def utf8EncodeChar (c : Char) : List Nat :=
  let n := c.toNat
  if n < 128 then [n]
  else if n < 2048 then [192 + n / 64, 128 + n % 64]
  else if n < 65536 then [224 + n / 4096, 128 + (n / 64) % 64, 128 + n % 64]
  else [240 + n / 262144, 128 + (n / 4096) % 64, 128 + (n / 64) % 64, 128 + n % 64]

/-- UTF-8 encoding of a character list. -/
def utf8Encode (l : List Char) : List Nat :=
  l.foldr (fun c acc => utf8EncodeChar c ++ acc) []

/-- The bytes of a string, UTF-8 encoded (Node Buffer.from with utf8). -/
def strBytes (s : String) : List Nat :=
  utf8Encode s.data

/-- 32-bit modulus. -/
def M32 : Nat := 4294967296

/-- Right rotation of a 32-bit word by n bits. -/
def rotr (n x : Nat) : Nat :=
  ((x >>> n) ||| (x <<< (32 - n))) % M32

/-- SHA-256 round constants, in decimal. -/
def shaK : List Nat :=
  [1116352408, 1899447441, 3049323471, 3921009573, 961987163, 1508970993,
   2453635748, 2870763221, 3624381080, 310598401, 607225278, 1426881987,
   1925078388, 2162078206, 2614888103, 3248222580, 3835390401, 4022224774,
   264347078, 604807628, 770255983, 1249150122, 1555081692, 1996064986,
   2554220882, 2821834349, 2952996808, 3210313671, 3336571891, 3584528711,
   113926993, 338241895, 666307205, 773529912, 1294757372, 1396182291,
   1695183700, 1986661051, 2177026350, 2456956037, 2730485921, 2820302411,
   3259730800, 3345764771, 3516065817, 3600352804, 4094571909, 275423344,
   430227734, 506948616, 659060556, 883997877, 958139571, 1322822218,
   1537002063, 1747873779, 1955562222, 2024104815, 2227730452, 2361852424,
   2428436474, 2756734187, 3204031479, 3329325298]

/-- Working state of the SHA-256 compression function: eight 32-bit words. -/
structure Sha256State where
  a : Nat
  b : Nat
  c : Nat
  d : Nat
  e : Nat
  f : Nat
  g : Nat
  h : Nat
deriving Repr, DecidableEq

/-- SHA-256 initial hash value, in decimal. -/
def shaH0 : Sha256State :=
  ⟨1779033703, 3144134277, 1013904242, 2773480762,
   1359893119, 2600822924, 528734635, 1541459225⟩

/-- One round of the SHA-256 compression function. -/
def sha256Round (st : Sha256State) (kt wt : Nat) : Sha256State :=
  let s1 := rotr 6 st.e ^^^ rotr 11 st.e ^^^ rotr 25 st.e
  let ch := (st.e &&& st.f) ^^^ ((st.e ^^^ (M32 - 1)) &&& st.g)
  let t1 := (st.h + s1 + ch + kt + wt) % M32
  let s0 := rotr 2 st.a ^^^ rotr 13 st.a ^^^ rotr 22 st.a
  let mj := (st.a &&& st.b) ^^^ (st.a &&& st.c) ^^^ (st.b &&& st.c)
  let t2 := (s0 + mj) % M32
  ⟨(t1 + t2) % M32, st.a, st.b, st.c, (st.d + t1) % M32, st.e, st.f, st.g⟩

/-- Extend the 16 words of a block by one scheduled word. -/
def scheduleStep (w : List Nat) : List Nat :=
  let n := w.length
  let s0 := fun x => rotr 7 x ^^^ rotr 18 x ^^^ (x >>> 3)
  let s1 := fun x => rotr 17 x ^^^ rotr 19 x ^^^ (x >>> 10)
  w ++ [(s1 (w.getD (n - 2) 0) + w.getD (n - 7) 0 + s0 (w.getD (n - 15) 0) + w.getD (n - 16) 0) % M32]

/-- The 64-word message schedule of one block. -/
def schedule (block : List Nat) : List Nat :=
  Nat.rec block (fun _ w => scheduleStep w) 48

/-- Compress one 64-entry word schedule into the hash state. -/
def compressBlock (hs : Sha256State) (block : List Nat) : Sha256State :=
  let w := schedule block
  let fin := (List.zip shaK w).foldl (fun st kw => sha256Round st kw.1 kw.2) hs
  ⟨(hs.a + fin.a) % M32, (hs.b + fin.b) % M32, (hs.c + fin.c) % M32, (hs.d + fin.d) % M32,
   (hs.e + fin.e) % M32, (hs.f + fin.f) % M32, (hs.g + fin.g) % M32, (hs.h + fin.h) % M32⟩

/-- SHA-256 padding of a byte message: append 0x80, zeros, and the 64-bit length. -/
def sha256Pad (msg : List Nat) : List Nat :=
  let L := msg.length
  let zeros := (64 - (L + 9) % 64) % 64
  let bitLen := 8 * L
  msg ++ [128] ++ List.replicate zeros 0 ++
    [bitLen / 2 ^ 56 % 256, bitLen / 2 ^ 48 % 256, bitLen / 2 ^ 40 % 256, bitLen / 2 ^ 32 % 256,
     bitLen / 2 ^ 24 % 256, bitLen / 2 ^ 16 % 256, bitLen / 2 ^ 8 % 256, bitLen % 256]

/-- The i-th 32-bit big-endian word of a byte list. -/
def wordAt (bs : List Nat) (i : Nat) : Nat :=
  bs.getD (4 * i) 0 * 2 ^ 24 + bs.getD (4 * i + 1) 0 * 2 ^ 16 +
    bs.getD (4 * i + 2) 0 * 2 ^ 8 + bs.getD (4 * i + 3) 0

/-- The 16-word blocks of a padded byte message. -/
def sha256Blocks (padded : List Nat) : List (List Nat) :=
  (List.range (padded.length / 64)).map fun b =>
    (List.range 16).map fun i => wordAt padded (16 * b + i)

/-- Big-endian bytes of a 32-bit word. -/
def wordBytes (w : Nat) : List Nat :=
  [w / 2 ^ 24 % 256, w / 2 ^ 16 % 256, w / 2 ^ 8 % 256, w % 256]

/-- The 32 digest bytes of a final hash state. -/
def digestBytes (st : Sha256State) : List Nat :=
  wordBytes st.a ++ wordBytes st.b ++ wordBytes st.c ++ wordBytes st.d ++
    wordBytes st.e ++ wordBytes st.f ++ wordBytes st.g ++ wordBytes st.h

/-- SHA-256 of a byte message, as 32 digest bytes. -/
def sha256Bytes (msg : List Nat) : List Nat :=
  digestBytes ((sha256Blocks (sha256Pad msg)).foldl compressBlock shaH0)

/-- The lowercase hex character of a value below 16. -/
def hexChar (n : Nat) : Char :=
  if n < 10 then Char.ofNat (48 + n) else Char.ofNat (87 + n)

/-- Lowercase hex string of a byte list. -/
def bytesToHex (bs : List Nat) : String :=
  ⟨bs.foldr (fun b acc => hexChar (b / 16) :: hexChar (b % 16) :: acc) []⟩

/-- SHA-256 hex digest of a string, as Node createHash sha256 update digest hex. -/
def sha256Hex (s : String) : String :=
  bytesToHex (sha256Bytes (strBytes s))

/-- HMAC-SHA256 of a byte message under a byte key. -/
def hmacSha256 (key msg : List Nat) : List Nat :=
  let k0 := if 64 < key.length then sha256Bytes key else key
  let k := k0 ++ List.replicate (64 - k0.length) 0
  let ipad := k.map (fun b => b ^^^ 54)
  let opad := k.map (fun b => b ^^^ 92)
  sha256Bytes (opad ++ sha256Bytes (ipad ++ msg))

/-- HMAC-SHA256 hex digest of a string body under a string secret. -/
def hmacSha256Hex (secret body : String) : String :=
  bytesToHex (hmacSha256 (strBytes secret) (strBytes body))

/-! ## Signature guard
src/src/core/security/signature.verifier.ts, function verifyWebhookSignature.
The shared secret config.WEBHOOK_SECRET is passed explicitly. -/

/-- verifyWebhookSignature: HMAC-SHA256 the raw body under the secret and compare
byte buffers; empty body or empty signature fails, differing buffer lengths fail,
the comparison is byte equality (timingSafeEqual). -/
def verifyWebhookSignature (secret body signature : String) : Bool :=
  if body = "" then false
  else if signature = "" then false
  else
    let computedSignature := hmacSha256Hex secret body
    let sourceBuffer := strBytes signature
    let comparisonBuffer := strBytes computedSignature
    if sourceBuffer.length ≠ comparisonBuffer.length then false
    else sourceBuffer == comparisonBuffer

/-! ## Data model of the TypeScript pipeline
src/src/modules/verification and src/src/modules/webhook. Time is in
milliseconds since the epoch, as Date.now gives it. -/

/-- A verification session row (Prisma model verificationSession). -/
structure VerificationSession where
  referenceCode : String
  walletAddress : String
  expiresAt : Nat
deriving Repr, DecidableEq

/-- The persistent store: session rows, processed PIX transaction ids and used
CPF hashes, each keyed by the single string column the repositories query. -/
structure Store where
  sessions : List VerificationSession
  processedPix : List String
  usedCpfHashes : List String
deriving Repr, DecidableEq

/-- webhook.repository.ts isPixTransactionProcessed: a findUnique point lookup
on the endToEndId key. -/
def isPixTransactionProcessed (st : Store) (endToEndId : String) : Bool :=
  st.processedPix.contains endToEndId

/-- webhook.repository.ts isCpfHashUsed: a findUnique point lookup on the
cpfHash key. -/
def isCpfHashUsed (st : Store) (cpfHash : String) : Bool :=
  st.usedCpfHashes.contains cpfHash

/-- verification.repository.ts findValidSessionByReferenceCode: findFirst with
referenceCode equal and expiresAt strictly greater than the current time. -/
def findValidSessionByReferenceCode (st : Store) (referenceCode : String) (now : Nat) :
    Option VerificationSession :=
  st.sessions.find? fun s => s.referenceCode == referenceCode && decide (now < s.expiresAt)

/-- webhook.repository.ts saveCpfAndPixTransaction: one Prisma transaction that
creates a uniqueCpfHash row and a processedPixTransaction row, all or nothing.
Modelled from the spec: the Prisma schema itself is not among the source files;
per the spec both keys carry storage-level unique constraints, so a create on an
already-present key rejects and the surrounding transaction writes neither row. -/
def saveCpfAndPixTransaction (st : Store) (cpfHash endToEndId : String) : Except String Store :=
  if st.usedCpfHashes.contains cpfHash || st.processedPix.contains endToEndId then
    Except.error "unique constraint violation"
  else
    Except.ok { st with
      usedCpfHashes := cpfHash :: st.usedCpfHashes,
      processedPix := endToEndId :: st.processedPix }

/-- webhook.service.ts hashCpf: SHA-256 hex digest of the CPF string as given,
with no normalization. -/
def hashCpf (cpf : String) : String :=
  sha256Hex cpf

/-- The PIX webhook payload shape expected by webhook.service.ts. -/
structure PixWebhookPayload where
  endToEndId : String
  valor : String
  pagadorCpf : String
  infoPagador : String
deriving Repr, DecidableEq

/-- What one run of processPixWebhook did: the returned status or thrown error,
the store afterwards, and the addresses for which mintSbt was invoked. -/
structure RunResult where
  outcome : Except String String
  store : Store
  mintCalls : List String
deriving Repr

/-- webhook.service.ts processPixWebhook. The mintSbt call is modelled by the
mintOk flag: true means the blockchain call returns, false means it throws, in
which case the service rethrows its own error and writes nothing. The
saveCpfAndPixTransaction call is not guarded by try in the source, so its
rejection surfaces as a thrown error as well. -/
def processPixWebhook (payload : PixWebhookPayload) (st : Store) (now : Nat) (mintOk : Bool) :
    RunResult :=
  if isPixTransactionProcessed st payload.endToEndId then
    ⟨Except.ok "DUPLICATE", st, []⟩
  else
    match findValidSessionByReferenceCode st payload.infoPagador now with
    | none => ⟨Except.ok "SESSION_NOT_FOUND", st, []⟩
    | some session =>
      let cpfHash := hashCpf payload.pagadorCpf
      if isCpfHashUsed st cpfHash then
        match saveCpfAndPixTransaction st cpfHash payload.endToEndId with
        | Except.error e => ⟨Except.error e, st, []⟩
        | Except.ok st2 => ⟨Except.ok "CPF_ALREADY_USED", st2, []⟩
      else if mintOk then
        match saveCpfAndPixTransaction st cpfHash payload.endToEndId with
        | Except.error e => ⟨Except.error e, st, [session.walletAddress]⟩
        | Except.ok st2 => ⟨Except.ok "SUCCESS", st2, [session.walletAddress]⟩
      else
        ⟨Except.error "Falha na emissão do SBT.", st, [session.walletAddress]⟩

/-- An HTTP response of the webhook controller together with the state the run
left behind. -/
structure HttpResponse where
  status : Nat
  store : Store
  mintCalls : List String
deriving Repr, DecidableEq

/-- webhook.controller.ts POST /webhook/pix: 401 when the signature check fails,
otherwise run processPixWebhook and answer 200 whether it returns or throws. -/
def webhookRoute (secret rawBody signature : String) (payload : PixWebhookPayload)
    (st : Store) (now : Nat) (mintOk : Bool) : HttpResponse :=
  if verifyWebhookSignature secret rawBody signature then
    let r := processPixWebhook payload st now mintOk
    match r.outcome with
    | Except.ok _ => ⟨200, r.store, r.mintCalls⟩
    | Except.error _ => ⟨200, r.store, r.mintCalls⟩
  else
    ⟨401, st, []⟩

/-! ## Session creation
src/src/modules/verification: repository createSession, service
createVerificationSession, controller POST /session. -/

/-- verification.repository.ts SESSION_TTL_MINUTES. -/
def SESSION_TTL_MINUTES : Nat := 15

/-- verification.repository.ts createSession: persist the session with
expiresAt = now + SESSION_TTL_MINUTES * 60 * 1000 milliseconds. -/
def createSession (st : Store) (now : Nat) (walletAddress referenceCode : String) : Store :=
  { st with sessions :=
      ⟨referenceCode, walletAddress, now + SESSION_TTL_MINUTES * 60 * 1000⟩ :: st.sessions }

/-- The zod body schema of POST /session: walletAddress is a string starting
with 0x of length exactly 42. -/
def isValidWalletBody (walletAddress : String) : Bool :=
  walletAddress.startsWith "0x" && walletAddress.length == 42

/-- The response of POST /session together with the resulting store. -/
structure SessionResponse where
  status : Nat
  referenceCode : Option String
  store : Store
deriving Repr, DecidableEq

/-- verification.controller.ts POST /session: fastify rejects a body failing the
zod schema with a 400 before the handler runs; otherwise the handler creates the
session and answers 201 with the generated reference code. The randomly
generated code is passed in as referenceCode. -/
def postSession (st : Store) (now : Nat) (walletAddress referenceCode : String) :
    SessionResponse :=
  if isValidWalletBody walletAddress then
    ⟨201, some referenceCode, createSession st now walletAddress referenceCode⟩
  else
    ⟨400, none, st⟩

/-! ## The standalone backend
src/backend/src/services/pix.js, src/backend/src/services/blockchain.js (given
as an unnamed source file) and src/backend/src/routes/verify.js. -/

/-- pix.js cleanCPF: remove every non-digit character. -/
def cleanCPF (cpf : String) : String :=
  ⟨cpf.data.filter fun c => c.isDigit⟩

/-- The regex that matches eleven repetitions of one digit: with the length
already checked to be eleven, it holds exactly when all characters agree. -/
def allSameChars (l : List Char) : Bool :=
  match l with
  | [] => true
  | c :: cs => cs.all fun d => d == c

/-- pix.js isValidCPFFormat: digits only, length eleven, not all the same. -/
def isValidCPFFormat (cpf : String) : Bool :=
  let cc := cleanCPF cpf
  if cc.length ≠ 11 then false
  else if allSameChars cc.data then false
  else true

/-- The numeric value of a digit character, as parseInt reads one digit. -/
def digitVal (c : Char) : Nat :=
  c.toNat - 48

/-- blockchain.js isValidCPF: digits only, length eleven, not all the same, and
both check digits of the CPF algorithm agree with positions nine and ten. -/
def isValidCPF (cpf : String) : Bool :=
  let cc := cleanCPF cpf
  if cc.length ≠ 11 then false
  else if allSameChars cc.data then false
  else
    let d := cc.data.map digitVal
    let sum1 := (List.range 9).foldl (fun acc i => acc + d.getD i 0 * (10 - i)) 0
    let r1 := 11 - sum1 % 11
    let firstDigit := if 10 ≤ r1 then 0 else r1
    let sum2 := (List.range 10).foldl (fun acc i => acc + d.getD i 0 * (11 - i)) 0
    let r2 := 11 - sum2 % 11
    let secondDigit := if 10 ≤ r2 then 0 else r2
    firstDigit == d.getD 9 0 && secondDigit == d.getD 10 0

/-- The regex of blockchain.js and verify.js for an Ethereum address: 0x then
exactly forty hex characters. -/
def isValidEthereumAddress (address : String) : Bool :=
  address.length == 42 && address.startsWith "0x" &&
    (address.data.drop 2).all fun c =>
      c.isDigit || ("a" ≤ c.toString && c.toString ≤ "f") || ("A" ≤ c.toString && c.toString ≤ "F")

/-- The on-chain contract state the backend reads: isVerified and getTokenId
per address. -/
structure Chain where
  verified : String → Bool
  tokenId : String → Nat

/-- blockchain.js isUserVerified: throws on a malformed address, otherwise the
contract isVerified answer. -/
def isUserVerified (ch : Chain) (userAddress : String) : Except String Bool :=
  if isValidEthereumAddress userAddress then Except.ok (ch.verified userAddress)
  else Except.error "Invalid user address"

/-- blockchain.js getUserTokenId: throws on a malformed address; the contract
getTokenId answer, mapped to none exactly when it is zero. -/
def getUserTokenId (ch : Chain) (userAddress : String) : Except String (Option Nat) :=
  if isValidEthereumAddress userAddress then
    if ch.tokenId userAddress = 0 then Except.ok none
    else Except.ok (some (ch.tokenId userAddress))
  else Except.error "Invalid user address"

/-- The response of GET /verify/status/:address: the HTTP status, and the
isVerified and tokenId fields when the request succeeds. -/
structure StatusResponse where
  status : Nat
  isVerified : Option Bool
  tokenId : Option Nat
deriving Repr, DecidableEq

/-- verify.js GET /status/:address: fastify rejects an address failing the route
pattern with a 400; the handler answers isVerified false with a null tokenId for
an unverified address, and otherwise the getUserTokenId answer; a thrown error
becomes a 400. -/
def statusRoute (ch : Chain) (address : String) : StatusResponse :=
  if isValidEthereumAddress address then
    match isUserVerified ch address with
    | Except.error _ => ⟨400, none, none⟩
    | Except.ok false => ⟨200, some false, none⟩
    | Except.ok true =>
      match getUserTokenId ch address with
      | Except.error _ => ⟨400, none, none⟩
      | Except.ok t => ⟨200, some true, t⟩
  else
    ⟨400, none, none⟩

/-! ## Branch shapes of processPixWebhook -/

/-- An already processed payment id short-circuits to DUPLICATE with no writes. -/
lemma runDuplicate (p : PixWebhookPayload) (st : Store) (now : Nat) (mintOk : Bool)
    (h1 : isPixTransactionProcessed st p.endToEndId = true) :
    processPixWebhook p st now mintOk = ⟨Except.ok "DUPLICATE", st, []⟩ := by
  simp [processPixWebhook, h1]

/-- With no valid session the run ends in SESSION_NOT_FOUND with no writes. -/
lemma runNoSession (p : PixWebhookPayload) (st : Store) (now : Nat) (mintOk : Bool)
    (h1 : isPixTransactionProcessed st p.endToEndId = false)
    (h2 : findValidSessionByReferenceCode st p.infoPagador now = none) :
    processPixWebhook p st now mintOk = ⟨Except.ok "SESSION_NOT_FOUND", st, []⟩ := by
  simp [processPixWebhook, h1, h2]

/-- With the CPF hash already used, the attempted dual insert rejects on the
unique constraint, the thrown error propagates and nothing is written. -/
lemma runUsedHash (p : PixWebhookPayload) (st : Store) (now : Nat) (mintOk : Bool)
    (session : VerificationSession)
    (h1 : isPixTransactionProcessed st p.endToEndId = false)
    (h2 : findValidSessionByReferenceCode st p.infoPagador now = some session)
    (h3 : isCpfHashUsed st (hashCpf p.pagadorCpf) = true) :
    processPixWebhook p st now mintOk =
      ⟨Except.error "unique constraint violation", st, []⟩ := by
  have h3' : st.usedCpfHashes.contains (hashCpf p.pagadorCpf) = true := h3
  have hm3 : hashCpf p.pagadorCpf ∈ st.usedCpfHashes := by simpa using h3'
  simp [processPixWebhook, isCpfHashUsed, saveCpfAndPixTransaction, h1, h2, hm3]

/-- The fresh success path: mint succeeds, then both rows are inserted. -/
lemma runMintOk (p : PixWebhookPayload) (st : Store) (now : Nat)
    (session : VerificationSession)
    (h1 : isPixTransactionProcessed st p.endToEndId = false)
    (h2 : findValidSessionByReferenceCode st p.infoPagador now = some session)
    (h3 : isCpfHashUsed st (hashCpf p.pagadorCpf) = false) :
    processPixWebhook p st now true =
      ⟨Except.ok "SUCCESS",
       { st with usedCpfHashes := hashCpf p.pagadorCpf :: st.usedCpfHashes,
                 processedPix := p.endToEndId :: st.processedPix },
       [session.walletAddress]⟩ := by
  have h1' : st.processedPix.contains p.endToEndId = false := h1
  have h3' : st.usedCpfHashes.contains (hashCpf p.pagadorCpf) = false := h3
  have hm1 : p.endToEndId ∉ st.processedPix := by simpa using h1'
  have hm3 : hashCpf p.pagadorCpf ∉ st.usedCpfHashes := by simpa using h3'
  simp [processPixWebhook, isPixTransactionProcessed, isCpfHashUsed,
    saveCpfAndPixTransaction, hm1, h2, hm3]

/-- The fresh mint-failure path: the store is untouched and the error is thrown. -/
lemma runMintFail (p : PixWebhookPayload) (st : Store) (now : Nat)
    (session : VerificationSession)
    (h1 : isPixTransactionProcessed st p.endToEndId = false)
    (h2 : findValidSessionByReferenceCode st p.infoPagador now = some session)
    (h3 : isCpfHashUsed st (hashCpf p.pagadorCpf) = false) :
    processPixWebhook p st now false =
      ⟨Except.error "Falha na emissão do SBT.", st, [session.walletAddress]⟩ := by
  simp [processPixWebhook, h1, h2, h3]

/-- C1: an authenticated, non-duplicate payment attributed to a valid session,
whose identity hash is not yet used, on which the mint call fails, leaves both
ledger columns untouched in that run — the store afterwards is the store
before — and the failure surfaces as the thrown internal error of the service
rather than a swallowed status. -/
theorem mintFailureWritesNothing (p : PixWebhookPayload) (st : Store) (now : Nat)
    (session : VerificationSession)
    (h1 : isPixTransactionProcessed st p.endToEndId = false)
    (h2 : findValidSessionByReferenceCode st p.infoPagador now = some session)
    (h3 : isCpfHashUsed st (hashCpf p.pagadorCpf) = false) :
    processPixWebhook p st now false =
      ⟨Except.error "Falha na emissão do SBT.", st, [session.walletAddress]⟩ :=
  runMintFail p st now session h1 h2 h3

/-- C1 witness: a concrete faulty-mint run on a one-session store. -/
theorem mintFailureWritesNothing_witness :
    processPixWebhook ⟨"E2E001", "0.01", "11111111111", "sol-a1b2"⟩
        ⟨[⟨"sol-a1b2", "0xAAAA1111", 900000⟩], [], []⟩ 0 false =
      ⟨Except.error "Falha na emissão do SBT.",
       ⟨[⟨"sol-a1b2", "0xAAAA1111", 900000⟩], [], []⟩, ["0xAAAA1111"]⟩ :=
  mintFailureWritesNothing ⟨"E2E001", "0.01", "11111111111", "sol-a1b2"⟩
    ⟨[⟨"sol-a1b2", "0xAAAA1111", 900000⟩], [], []⟩ 0
    ⟨"sol-a1b2", "0xAAAA1111", 900000⟩ (by rfl) (by rfl) (by rfl)

/-- C3: after a run of processPixWebhook that returned SUCCESS, replaying the
identical payload against the resulting store yields DUPLICATE, leaves the
store exactly as it was, and makes no mint call: the payment-id idempotency
check is the first step and short-circuits the run. -/
theorem replayAfterSuccessIsDuplicate (p : PixWebhookPayload) (st : Store)
    (now : Nat) (mintOk : Bool) (now2 : Nat) (mintOk2 : Bool)
    (h : (processPixWebhook p st now mintOk).outcome = Except.ok "SUCCESS") :
    processPixWebhook p (processPixWebhook p st now mintOk).store now2 mintOk2 =
      ⟨Except.ok "DUPLICATE", (processPixWebhook p st now mintOk).store, []⟩ := by
  cases h1 : isPixTransactionProcessed st p.endToEndId with
  | true => rw [runDuplicate p st now mintOk h1] at h; simp at h
  | false =>
    cases hfind : findValidSessionByReferenceCode st p.infoPagador now with
    | none => rw [runNoSession p st now mintOk h1 hfind] at h; simp at h
    | some session =>
      cases h3 : isCpfHashUsed st (hashCpf p.pagadorCpf) with
      | true => rw [runUsedHash p st now mintOk session h1 hfind h3] at h; simp at h
      | false =>
        cases mintOk with
        | false => rw [runMintFail p st now session h1 hfind h3] at h; simp at h
        | true =>
          rw [runMintOk p st now session h1 hfind h3]
          apply runDuplicate
          simp [isPixTransactionProcessed]

/-- C3 witness: a concrete successful first run, then the identical replay. -/
theorem replayAfterSuccessIsDuplicate_witness :
    processPixWebhook ⟨"E2E001", "0.01", "11111111111", "sol-a1b2"⟩
        (processPixWebhook ⟨"E2E001", "0.01", "11111111111", "sol-a1b2"⟩
          ⟨[⟨"sol-a1b2", "0xAAAA1111", 900000⟩], [], []⟩ 0 true).store 5 false =
      ⟨Except.ok "DUPLICATE",
       (processPixWebhook ⟨"E2E001", "0.01", "11111111111", "sol-a1b2"⟩
          ⟨[⟨"sol-a1b2", "0xAAAA1111", 900000⟩], [], []⟩ 0 true).store, []⟩ :=
  replayAfterSuccessIsDuplicate ⟨"E2E001", "0.01", "11111111111", "sol-a1b2"⟩
    ⟨[⟨"sol-a1b2", "0xAAAA1111", 900000⟩], [], []⟩ 0 true 5 false (by rfl)

/-- C4: findValidSessionByReferenceCode answers a session only when its
expiresAt lies strictly after the current time and its reference code matches;
and when no stored session matches unexpired, a not-yet-processed payment ends
in SESSION_NOT_FOUND with the store untouched and no mint call. -/
theorem noSessionOutcome (p : PixWebhookPayload) (st : Store) (now : Nat) (mintOk : Bool) :
    (∀ s, findValidSessionByReferenceCode st p.infoPagador now = some s →
        now < s.expiresAt ∧ s.referenceCode = p.infoPagador)
    ∧ (isPixTransactionProcessed st p.endToEndId = false →
       (∀ s ∈ st.sessions, s.referenceCode = p.infoPagador → s.expiresAt ≤ now) →
       processPixWebhook p st now mintOk = ⟨Except.ok "SESSION_NOT_FOUND", st, []⟩) := by
  constructor
  · intro s hs
    have hp := List.find?_some hs
    simp only [Bool.and_eq_true, beq_iff_eq, decide_eq_true_eq] at hp
    exact ⟨hp.2, hp.1⟩
  · intro h1 hexp
    apply runNoSession p st now mintOk h1
    simp only [findValidSessionByReferenceCode, List.find?_eq_none, Bool.and_eq_true,
      beq_iff_eq, decide_eq_true_eq, not_and, not_lt]
    intro s hmem heq
    exact hexp s hmem heq

/-- C2: a payment whose CPF hash is already in the ledger does not end in the
CPF_ALREADY_USED return. saveCpfAndPixTransaction creates both rows in one
transaction, so the uniqueCpfHash create rejects on its unique constraint, the
transaction writes nothing, and the thrown error escapes the service: in
particular the payment id is NOT marked processed, against the stated intent of
recording the payment-id side. -/
theorem duplicateIdentityRunThrows :
    processPixWebhook ⟨"E2E002", "0.01", "11111111111", "sol-a1b2"⟩
        ⟨[⟨"sol-a1b2", "0xBBBB2222", 900000⟩], [], [hashCpf "11111111111"]⟩ 0 true =
      ⟨Except.error "unique constraint violation",
       ⟨[⟨"sol-a1b2", "0xBBBB2222", 900000⟩], [], [hashCpf "11111111111"]⟩, []⟩ :=
  runUsedHash ⟨"E2E002", "0.01", "11111111111", "sol-a1b2"⟩
    ⟨[⟨"sol-a1b2", "0xBBBB2222", 900000⟩], [], [hashCpf "11111111111"]⟩ 0 true
    ⟨"sol-a1b2", "0xBBBB2222", 900000⟩ (by rfl) (by rfl) (by simp [isCpfHashUsed])

/-- Two textual renderings of the same CPF hash to different digests, because
hashCpf digests the string as given. -/
lemma hashCpf_formatting_differs : hashCpf "111.111.111-11" ≠ hashCpf "11111111111" := by
  decide

/-- C5 counterexample: the formatted and the digits-only rendering of the same
CPF produce different identity hashes, so hashCpf does not normalize its input
to digits before hashing. -/
theorem cpfHashNotNormalized_counterexample :
    hashCpf "111.111.111-11" ≠ hashCpf "11111111111" :=
  hashCpf_formatting_differs

/-- C5 amended: hashCpf digests the submitted CPF string as given, with no
digits-only normalization, so two renderings of one CPF are distinct identities
to the uniqueness check: with the digits-only hash already in the ledger, the
formatted rendering passes the check and a second mint is invoked. -/
theorem cpfHashNotNormalized :
    processPixWebhook ⟨"E2E003", "0.01", "111.111.111-11", "sol-a1b2"⟩
        ⟨[⟨"sol-a1b2", "0xCCCC3333", 900000⟩], [], [hashCpf "11111111111"]⟩ 0 true =
      ⟨Except.ok "SUCCESS",
       ⟨[⟨"sol-a1b2", "0xCCCC3333", 900000⟩], ["E2E003"],
        [hashCpf "111.111.111-11", hashCpf "11111111111"]⟩, ["0xCCCC3333"]⟩ :=
  runMintOk ⟨"E2E003", "0.01", "111.111.111-11", "sol-a1b2"⟩
    ⟨[⟨"sol-a1b2", "0xCCCC3333", 900000⟩], [], [hashCpf "11111111111"]⟩ 0
    ⟨"sol-a1b2", "0xCCCC3333", 900000⟩ (by rfl) (by rfl)
    (by simp [isCpfHashUsed, hashCpf_formatting_differs])

/-- C7: the webhook endpoint answers 401 exactly when the signature check
fails — rejecting without touching the store or minting — and 200 whenever the
signature check passes, whether the pipeline returns a status or throws. -/
theorem webhookStatusPolicy (secret rawBody signature : String) (payload : PixWebhookPayload)
    (st : Store) (now : Nat) (mintOk : Bool) :
    ((webhookRoute secret rawBody signature payload st now mintOk).status = 401 ↔
      verifyWebhookSignature secret rawBody signature = false)
    ∧ (verifyWebhookSignature secret rawBody signature = false →
        webhookRoute secret rawBody signature payload st now mintOk = ⟨401, st, []⟩)
    ∧ (verifyWebhookSignature secret rawBody signature = true →
        (webhookRoute secret rawBody signature payload st now mintOk).status = 200) := by
  cases hv : verifyWebhookSignature secret rawBody signature with
  | false => simp [webhookRoute, hv]
  | true =>
    cases ho : (processPixWebhook payload st now mintOk).outcome <;>
      simp [webhookRoute, hv, ho]

/-- C8: the session body schema accepts exactly the 42-character strings
starting with 0x; an accepted request answers 201 with the reference code and
persists the session with expiresAt exactly 15 minutes after creation; a
rejected request answers 4xx and creates nothing. -/
theorem sessionCreationContract (st : Store) (now : Nat) (walletAddress referenceCode : String) :
    (isValidWalletBody walletAddress = true ↔
        walletAddress.startsWith "0x" = true ∧ walletAddress.length = 42)
    ∧ (isValidWalletBody walletAddress = true →
        postSession st now walletAddress referenceCode =
          ⟨201, some referenceCode,
           { st with sessions :=
              ⟨referenceCode, walletAddress, now + 15 * 60 * 1000⟩ :: st.sessions }⟩)
    ∧ (isValidWalletBody walletAddress = false →
        postSession st now walletAddress referenceCode = ⟨400, none, st⟩) := by
  refine ⟨?_, ?_, ?_⟩
  · simp [isValidWalletBody]
  · intro hv
    simp [postSession, hv, createSession, SESSION_TTL_MINUTES]
  · intro hv
    simp [postSession, hv]

/-- C9: the full check-digit validator accepts only strings the format-only
validator accepts, and the containment is strict: 12345678901 passes the
length-and-repetition check but fails the check digits, so a payment can pass
webhook-level validation and still be rejected as an invalid CPF at mint time. -/
theorem cpfValidatorsStrictlyOrdered :
    (∀ cpf, isValidCPF cpf = true → isValidCPFFormat cpf = true)
    ∧ isValidCPFFormat "12345678901" = true
    ∧ isValidCPF "12345678901" = false := by
  refine ⟨?_, by decide, by decide⟩
  intro cpf h
  unfold isValidCPF at h
  unfold isValidCPFFormat
  by_cases hlen : (cleanCPF cpf).length ≠ 11
  · rw [if_pos hlen] at h
    exact absurd h (by simp)
  · rw [if_neg hlen] at h ⊢
    by_cases hsame : allSameChars (cleanCPF cpf).data = true
    · rw [if_pos hsame] at h
      exact absurd h (by simp)
    · rw [if_neg hsame]

/-- C10: getUserTokenId answers none exactly when the contract getTokenId is
zero for a well-formed address; the status route answers isVerified false with
a null tokenId for an unverified address; and no response ever carries a zero
token id. -/
theorem zeroTokenIdNeverExposed (ch : Chain) (address : String) :
    (getUserTokenId ch address = Except.ok none ↔
        isValidEthereumAddress address = true ∧ ch.tokenId address = 0)
    ∧ (isValidEthereumAddress address = true → ch.verified address = false →
        statusRoute ch address = ⟨200, some false, none⟩)
    ∧ (∀ t, (statusRoute ch address).tokenId = some t → t ≠ 0) := by
  refine ⟨?_, ?_, ?_⟩
  · by_cases hv : isValidEthereumAddress address = true
    · by_cases hz : ch.tokenId address = 0
      · simp [getUserTokenId, hv, hz]
      · simp [getUserTokenId, hv, hz]
    · simp [getUserTokenId, hv]
  · intro hv hnv
    simp [statusRoute, isUserVerified, hv, hnv]
  · intro t ht
    by_cases hv : isValidEthereumAddress address = true
    · cases hb : ch.verified address with
      | false => simp [statusRoute, isUserVerified, hv, hb] at ht
      | true =>
        by_cases hz : ch.tokenId address = 0
        · simp [statusRoute, isUserVerified, getUserTokenId, hv, hb, hz] at ht
        · simp [statusRoute, isUserVerified, getUserTokenId, hv, hb, hz] at ht
          omega
    · simp [statusRoute, hv] at ht

/-! ## Facts about the byte encodings used by the signature guard -/

/-- utf8Encode on the empty character list. -/
lemma utf8Encode_nil : utf8Encode [] = [] := rfl

/-- utf8Encode distributes over cons. -/
lemma utf8Encode_cons (c : Char) (l : List Char) :
    utf8Encode (c :: l) = utf8EncodeChar c ++ utf8Encode l := rfl

/-- Every character encodes to at least one byte. -/
lemma utf8EncodeChar_ne_nil (c : Char) : utf8EncodeChar c ≠ [] := by
  unfold utf8EncodeChar
  by_cases h1 : c.toNat < 128
  · simp [h1]
  · by_cases h2 : c.toNat < 2048
    · simp [h1, h2]
    · by_cases h3 : c.toNat < 65536
      · simp [h1, h2, h3]
      · simp [h1, h2, h3]

/-- An ASCII character encodes to its own single byte. -/
lemma utf8EncodeChar_ascii (c : Char) (h : c.toNat < 128) :
    utf8EncodeChar c = [c.toNat] := by
  simp [utf8EncodeChar, h]

/-- A non-ASCII character encodes to bytes whose head is at least 128. -/
lemma utf8EncodeChar_head_of_not_ascii (c : Char) (h : ¬ c.toNat < 128)
    (b : Nat) (bs : List Nat) (heq : utf8EncodeChar c = b :: bs) : 128 ≤ b := by
  unfold utf8EncodeChar at heq
  rw [if_neg h] at heq
  by_cases h2 : c.toNat < 2048
  · rw [if_pos h2] at heq
    injection heq with hb _
    omega
  · rw [if_neg h2] at heq
    by_cases h3 : c.toNat < 65536
    · rw [if_pos h3] at heq
      injection heq with hb _
      omega
    · rw [if_neg h3] at heq
      injection heq with hb _
      omega

/-- UTF-8 encoding is injective when the target string is ASCII. -/
lemma utf8Encode_inj_of_ascii : ∀ (t s : List Char), (∀ c ∈ t, c.toNat < 128) →
    utf8Encode s = utf8Encode t → s = t := by
  intro t
  induction t with
  | nil =>
    intro s _ heq
    cases s with
    | nil => rfl
    | cons c cs =>
      rw [utf8Encode_cons, utf8Encode_nil] at heq
      exact absurd (List.append_eq_nil.mp heq).1 (utf8EncodeChar_ne_nil c)
  | cons d ds ih =>
    intro s hascii heq
    have hd : d.toNat < 128 := hascii d (List.mem_cons_self d ds)
    rw [utf8Encode_cons, utf8EncodeChar_ascii d hd, List.singleton_append] at heq
    cases s with
    | nil =>
      rw [utf8Encode_nil] at heq
      exact absurd heq (by simp)
    | cons c cs =>
      rw [utf8Encode_cons] at heq
      by_cases hc : c.toNat < 128
      · rw [utf8EncodeChar_ascii c hc, List.singleton_append] at heq
        injection heq with h1 h2
        have hcd : c = d := Char.ext (UInt32.ext_iff.mpr h1)
        subst hcd
        rw [ih cs (fun x hx => hascii x (List.mem_cons_of_mem _ hx)) h2]
      · exfalso
        rcases henc : utf8EncodeChar c with _ | ⟨b, bs⟩
        · exact utf8EncodeChar_ne_nil c henc
        · rw [henc, List.cons_append] at heq
          injection heq with h1 _
          have := utf8EncodeChar_head_of_not_ascii c hc b bs henc
          omega

/-- Byte-buffer equality forces string equality when one string is ASCII. -/
lemma strBytes_inj_of_ascii (s t : String) (ht : ∀ c ∈ t.data, c.toNat < 128)
    (h : strBytes s = strBytes t) : s = t :=
  String.ext (utf8Encode_inj_of_ascii t.data s.data ht h)

/-- Hex characters are ASCII. -/
lemma hexChar_toNat_lt (n : Nat) (h : n < 16) : (hexChar n).toNat < 128 := by
  have hall : ∀ m < 16, (hexChar m).toNat < 128 := by decide
  exact hall n h

/-- bytesToHex on the empty list. -/
lemma bytesToHex_nil_data : (bytesToHex []).data = [] := rfl

/-- bytesToHex distributes over cons, two hex characters per byte. -/
lemma bytesToHex_data_cons (b : Nat) (rest : List Nat) :
    (bytesToHex (b :: rest)).data =
      hexChar (b / 16) :: hexChar (b % 16) :: (bytesToHex rest).data := rfl

/-- The hex rendering of a list of bytes is an ASCII string. -/
lemma bytesToHex_ascii : ∀ (bs : List Nat), (∀ b ∈ bs, b < 256) →
    ∀ c ∈ (bytesToHex bs).data, c.toNat < 128 := by
  intro bs
  induction bs with
  | nil =>
    intro _ c hc
    rw [bytesToHex_nil_data] at hc
    exact absurd hc (List.not_mem_nil c)
  | cons b rest ih =>
    intro hb c hc
    rw [bytesToHex_data_cons] at hc
    have hb256 : b < 256 := hb b (List.mem_cons_self b rest)
    rcases List.mem_cons.mp hc with rfl | hc2
    · exact hexChar_toNat_lt _ (by omega)
    · rcases List.mem_cons.mp hc2 with rfl | hc3
      · exact hexChar_toNat_lt _ (by omega)
      · exact ih (fun x hx => hb x (List.mem_cons_of_mem _ hx)) c hc3

/-- Each big-endian word byte is below 256. -/
lemma wordBytes_lt (w : Nat) : ∀ b ∈ wordBytes w, b < 256 := by
  intro b hb
  simp only [wordBytes, List.mem_cons, List.not_mem_nil, or_false] at hb
  rcases hb with rfl | rfl | rfl | rfl <;> omega

/-- Every SHA-256 digest byte is below 256. -/
lemma sha256Bytes_lt (msg : List Nat) : ∀ b ∈ sha256Bytes msg, b < 256 := by
  intro b hb
  unfold sha256Bytes digestBytes at hb
  simp only [List.mem_append] at hb
  rcases hb with ((((((h | h) | h) | h) | h) | h) | h) | h <;> exact wordBytes_lt _ b h

/-- Every HMAC-SHA256 byte is below 256. -/
lemma hmacSha256_lt (key msg : List Nat) : ∀ b ∈ hmacSha256 key msg, b < 256 :=
  fun b hb => sha256Bytes_lt _ b hb

/-- An HMAC-SHA256 digest is never the empty byte list. -/
lemma hmacSha256_ne_nil (key msg : List Nat) : hmacSha256 key msg ≠ [] := by
  have h32 : (hmacSha256 key msg).length = 32 := rfl
  intro h
  rw [h] at h32
  simp at h32

/-- The hex rendering of a nonempty byte list is a nonempty string. -/
lemma bytesToHex_ne_empty (bs : List Nat) (h : bs ≠ []) : bytesToHex bs ≠ "" := by
  cases bs with
  | nil => exact absurd rfl h
  | cons b rest =>
    intro hcontra
    have hdata : (bytesToHex (b :: rest)).data = ("" : String).data := by rw [hcontra]
    rw [bytesToHex_data_cons] at hdata
    simp at hdata

/-- C6: the signature guard is total and fails closed — it answers true exactly
when the body is nonempty and the presented signature is the HMAC-SHA256 hex
digest of the exact raw body under the shared secret; every other input,
including empty inputs and signatures of differing byte length, answers false. -/
theorem signatureGuardSound (secret body signature : String) :
    verifyWebhookSignature secret body signature = true ↔
      body ≠ "" ∧ signature = hmacSha256Hex secret body := by
  constructor
  · intro h
    simp only [verifyWebhookSignature] at h
    by_cases hb : body = ""
    · rw [if_pos hb] at h
      exact absurd h (by simp)
    · rw [if_neg hb] at h
      by_cases hs : signature = ""
      · rw [if_pos hs] at h
        exact absurd h (by simp)
      · rw [if_neg hs] at h
        refine ⟨hb, ?_⟩
        by_cases hl :
            (strBytes signature).length ≠ (strBytes (hmacSha256Hex secret body)).length
        · rw [if_pos hl] at h
          exact absurd h (by simp)
        · rw [if_neg hl] at h
          have heq : strBytes signature = strBytes (hmacSha256Hex secret body) := by
            simpa using h
          exact strBytes_inj_of_ascii _ _
            (bytesToHex_ascii _ (hmacSha256_lt _ _)) heq
  · rintro ⟨hb, hsig⟩
    subst hsig
    have hne : hmacSha256Hex secret body ≠ "" :=
      bytesToHex_ne_empty _ (hmacSha256_ne_nil _ _)
    simp only [verifyWebhookSignature]
    rw [if_neg hb, if_neg hne, if_neg (by simp :
      ¬ (strBytes (hmacSha256Hex secret body)).length ≠
          (strBytes (hmacSha256Hex secret body)).length)]
    simp
